import Mathlib

/-!
Shallow embedding of `app.py` (weather-forecast-app): a Flask handler that
fetches a 5-day forecast from OpenWeatherMap, renders it, and optionally
stores the raw JSON in PostgreSQL.

Modelling conventions:
* JSON documents are the inductive `Json`; numbers are rationals (the script
  only rounds and forwards them, and `round` on the values at issue is exact).
* Python subscripting / `.get` / iteration / the `in` operator are total Lean
  functions into `Except PyExn _`, mirroring the exceptions CPython raises.
* `requests.get` and its outcome are an explicit input (`NetOutcome`), the
  database an explicit input (`DbEnv`), `datetime.fromtimestamp(..).strftime`
  a function parameter `fmtDate` (its output depends on the host timezone).
* Functions that the source instruments with side effects carry an explicit
  flag: `get_weather_forecast` returns whether a network request was
  attempted, the handlers return whether the external call was invoked.
-/

namespace WeatherApp

/-- A JSON value, as produced by `response.json()` / `json.loads`. -/
inductive Json where
  | null
  | bool (b : Bool)
  | num (q : ℚ)
  | str (s : String)
  | arr (elems : List Json)
  | obj (fields : List (String × Json))

/-- The Python exceptions the parsing code can raise. -/
inductive PyExn where
  | keyError (key : String)
  | typeError (msg : String)
  | indexError (msg : String)
  | attrError (msg : String)
  deriving DecidableEq, Repr

/-- Lookup of a string key in a (JSON-derived, hence string-keyed) dict. -/
def lookupKey : List (String × Json) → String → Option Json
  | [], _ => none
  | (k, v) :: rest, key => if k = key then some v else lookupKey rest key

/-- Python `container[key]` for a string key. -/
def subStr (j : Json) (key : String) : Except PyExn Json :=
  match j with
  | .obj fs =>
    match lookupKey fs key with
    | some v => .ok v
    | none => .error (.keyError key)
  | .arr _ => .error (.typeError "list indices must be integers or slices, not str")
  | .str _ => .error (.typeError "string indices must be integers")
  | _ => .error (.typeError "object is not subscriptable")

/-- Python `container[i]` for a nonnegative integer index. -/
def subIdx (j : Json) (i : Nat) : Except PyExn Json :=
  match j with
  | .arr xs =>
    match xs.get? i with
    | some v => .ok v
    | none => .error (.indexError "list index out of range")
  | .obj _ => .error (.keyError "0")
  | .str s =>
    match s.toList.get? i with
    | some c => .ok (.str (String.mk [c]))
    | none => .error (.indexError "string index out of range")
  | _ => .error (.typeError "object is not subscriptable")

/-- Python `d.get(key, default)`: only dicts have `.get`. -/
def dictGetD (j : Json) (key : String) (dflt : Json) : Except PyExn Json :=
  match j with
  | .obj fs =>
    match lookupKey fs key with
    | some v => .ok v
    | none => .ok dflt
  | _ => .error (.attrError "object has no attribute get")

/-- Python numeric coercion: `round` / `fromtimestamp` accept ints, floats
and bools (`True == 1`). -/
def asNumber (j : Json) : Except PyExn ℚ :=
  match j with
  | .num q => .ok q
  | .bool b => .ok (if b then 1 else 0)
  | _ => .error (.typeError "must be a real number")

/-- Python `.title()` receiver check: only `str` has the attribute. -/
def asString (j : Json) : Except PyExn String :=
  match j with
  | .str s => .ok s
  | _ => .error (.attrError "object has no attribute title")

/-- Python iteration `for x in j`: lists yield elements, strings yield
one-character strings, dicts yield their keys; other values raise. -/
def iterElems (j : Json) : Except PyExn (List Json) :=
  match j with
  | .arr xs => .ok xs
  | .str s => .ok (s.toList.map (fun c => Json.str (String.mk [c])))
  | .obj fs => .ok (fs.map (fun kv => Json.str kv.1))
  | _ => .error (.typeError "object is not iterable")

/-- Whether `needle` stands at the head of `hay`. -/
def beginsWith : List Char → List Char → Bool
  | [], _ => true
  | _ :: _, [] => false
  | a :: as, b :: bs => a = b && beginsWith as bs

/-- Whether `needle` occurs contiguously inside `hay`. -/
def hasSubstr (needle : List Char) : List Char → Bool
  | [] => beginsWith needle []
  | c :: rest => beginsWith needle (c :: rest) || hasSubstr needle rest

/-- Python `sub in s` for strings: contiguous substring. -/
def strContains (s sub : String) : Bool := hasSubstr sub.toList s.toList

/-- Python `j == s` for a string literal `s`: only a `str` value can compare
equal to a string. -/
def eqStr (j : Json) (s : String) : Bool :=
  match j with
  | .str t => t = s
  | _ => false

/-- Python `needle in container` (`"12:00:00" in forecast['dt_txt']`):
substring test on strings, membership on lists, key membership on dicts. -/
def pyIn (needle : String) (container : Json) : Except PyExn Bool :=
  match container with
  | .str s => .ok (strContains s needle)
  | .arr xs => .ok (xs.any (fun j => eqStr j needle))
  | .obj fs => .ok (fs.any (fun kv => kv.1 = needle))
  | _ => .error (.typeError "argument is not iterable")

/-- Python `round` on an exact rational: round-half-to-even, as CPython does.
Computed on the reduced numerator and denominator: `f` is the floor (the
denominator is positive, so Euclidean division floors), and the fractional
part `q - f` is compared against one half by cross-multiplication. -/
def pyRound (q : ℚ) : ℤ :=
  let f : ℤ := q.num.ediv q.den
  let r2 : ℤ := 2 * (q.num - f * q.den)
  if r2 < q.den then f
  else if (q.den : ℤ) < r2 then f + 1
  else if f % 2 = 0 then f else f + 1

/-- One step of Python `str.title()`: the Boolean says whether the previous
character was alphabetic. -/
def titleAux : Bool → List Char → List Char
  | _, [] => []
  | prevAlpha, c :: rest =>
    (if prevAlpha then c.toLower else c.toUpper) :: titleAux c.isAlpha rest

/-- Python `str.title()`: each alphabetic run starts uppercase, continues
lowercase. -/
def pyTitle (s : String) : String := String.mk (titleAux false s.toList)

/-- One processed per-day entry, as appended to `processed_forecasts`. -/
structure ForecastEntry where
  date : String
  temp : ℤ
  description : String
  icon : Json

/-- The `city_info` dict built from `data['city']`: the source stores the
looked-up values with no type check, so the fields are raw JSON. -/
structure CityInfo where
  name : Json
  country : Json

/-- What `requests.get` did: either an HTTP response arrived (any status), or
a `RequestException` other than `HTTPError` was raised, carrying `str(e)`. -/
inductive NetOutcome where
  | resp (status : Nat) (errText : String) (body : Json)
  | requestExc (msg : String)

/-- The four ways `get_weather_forecast` can finish, keeping the tuple arity
of each `return`: `pair2` is the two-element `return None, msg` on the
missing-key path; `ok4` and `err4` are the four-element returns; `exc` is an
exception that escapes the function (its `except` clauses only catch
`requests` exceptions). -/
inductive FetchResult where
  | pair2 (msg : String)
  | ok4 (forecasts : List ForecastEntry) (cityInfo : CityInfo) (raw : Json)
  | err4 (msg : String)
  | exc (e : PyExn)

/-- Python truthiness of `OPENWEATHER_API_KEY` (`os.getenv`: absent → `None`,
else the string; falsy when `None` or empty). -/
def truthyKey : Option String → Bool
  | none => false
  | some s => !s.isEmpty

/-- The body of the `for forecast in data.get('list', [])` loop for one
sample: keep it only when `"12:00:00" in forecast['dt_txt']`, then build the
entry fields in the source's evaluation order (`dt`, `main.temp`,
`weather[0].description.title()`, `weather[0].icon`). -/
def processSample (fmtDate : ℚ → String) (s : Json) : Except PyExn (Option ForecastEntry) :=
  match subStr s "dt_txt" with
  | .error e => .error e
  | .ok dtTxt =>
    match pyIn "12:00:00" dtTxt with
    | .error e => .error e
    | .ok false => .ok none
    | .ok true =>
      match subStr s "dt" with
      | .error e => .error e
      | .ok dtJ =>
        match asNumber dtJ with
        | .error e => .error e
        | .ok ts =>
          match subStr s "main" with
          | .error e => .error e
          | .ok mainJ =>
            match subStr mainJ "temp" with
            | .error e => .error e
            | .ok tempJ =>
              match asNumber tempJ with
              | .error e => .error e
              | .ok t =>
                match subStr s "weather" with
                | .error e => .error e
                | .ok weatherJ =>
                  match subIdx weatherJ 0 with
                  | .error e => .error e
                  | .ok w0 =>
                    match subStr w0 "description" with
                    | .error e => .error e
                    | .ok descJ =>
                      match asString descJ with
                      | .error e => .error e
                      | .ok d =>
                        match subStr w0 "icon" with
                        | .error e => .error e
                        | .ok iconJ =>
                          .ok (some ⟨fmtDate ts, pyRound t, pyTitle d, iconJ⟩)

/-- The whole loop over the samples, appending in order; the first exception
aborts the loop as in Python. -/
def processSamples (fmtDate : ℚ → String) : List Json → Except PyExn (List ForecastEntry)
  | [] => .ok []
  | s :: rest =>
    match processSample fmtDate s with
    | .error e => .error e
    | .ok none => processSamples fmtDate rest
    | .ok (some entry) =>
      match processSamples fmtDate rest with
      | .error e => .error e
      | .ok entries => .ok (entry :: entries)

/-- The success-path body of `get_weather_forecast` after `response.json()`:
filter the samples, then build `city_info` from `data['city']`. -/
def processBody (fmtDate : ℚ → String) (data : Json) : Except PyExn (List ForecastEntry × CityInfo) :=
  match dictGetD data "list" (.arr []) with
  | .error e => .error e
  | .ok lst =>
    match iterElems lst with
    | .error e => .error e
    | .ok samples =>
      match processSamples fmtDate samples with
      | .error e => .error e
      | .ok fcs =>
        match subStr data "city" with
        | .error e => .error e
        | .ok cityJ =>
          match subStr cityJ "name" with
          | .error e => .error e
          | .ok nm =>
            match subStr cityJ "country" with
            | .error e => .error e
            | .ok co => .ok (fcs, ⟨nm, co⟩)

/-- `get_weather_forecast(city)`. The Boolean records whether `requests.get`
was reached (a network request attempted). `raise_for_status` raises
`HTTPError` exactly for statuses 400–599; that clause returns the 404 message
or the generic API message built from `str(e)`; other `RequestException`s map
to the network message; exceptions in the success-path parsing escape. -/
def get_weather_forecast (apiKey : Option String) (fmtDate : ℚ → String)
    (net : NetOutcome) (city : String) : FetchResult × Bool :=
  if truthyKey apiKey = false then
    (.pair2 "OpenWeatherMap API key is not configured.", false)
  else
    match net with
    | .requestExc msg => (.err4 ("A network error occurred: " ++ msg), true)
    | .resp status errText body =>
      if 400 ≤ status ∧ status < 600 then
        if status = 404 then
          (.err4 ("Could not find weather data for '" ++ city ++ "'. Please check the spelling."), true)
        else
          (.err4 ("An API error occurred: " ++ errText), true)
      else
        match processBody fmtDate body with
        | .error e => (.exc e, true)
        | .ok (fcs, ci) => (.ok4 fcs ci body, true)

/-! ### Forecast Store (`get_db_connection`, `init_db`, `save_forecast_to_db`) -/

/-- One column of the `forecasts` table, as in the `CREATE TABLE` statement. -/
inductive ColType where
  | serialPK
  | varchar (n : Nat)
  | jsonb
  | timestamptz
  deriving DecidableEq

/-- A column: name, type, NOT NULL flag, optional default expression. -/
structure Column where
  name : String
  ty : ColType
  notNull : Bool
  dflt : Option String
  deriving DecidableEq

/-- The schema `init_db` creates. -/
def forecastsSchema : List Column :=
  [⟨"id", .serialPK, false, none⟩,
   ⟨"user_name", .varchar 100, true, none⟩,
   ⟨"city", .varchar 100, true, none⟩,
   ⟨"forecast_data", .jsonb, true, none⟩,
   ⟨"saved_at", .timestamptz, false, some "CURRENT_TIMESTAMP"⟩]

/-- A persisted row: surrogate id, user name, city, raw document, timestamp
(an opaque tick). -/
structure SavedRow where
  id : Nat
  userName : String
  city : String
  doc : Json
  savedAt : Nat

/-- The database state: the `forecasts` table (its schema and rows) when it
exists. PostgreSQL's `CREATE TABLE IF NOT EXISTS` keeps an existing table —
schema and rows — untouched. -/
structure DbState where
  forecasts : Option (List Column × List SavedRow)

/-- `CREATE TABLE IF NOT EXISTS forecasts (...)`. -/
def createTableIfNotExists (st : DbState) : DbState :=
  match st.forecasts with
  | none => ⟨some (forecastsSchema, [])⟩
  | some _ => st

/-- `init_db()`: `get_db_connection` either fails (function prints and
returns, leaving the state alone) or the table is ensured. -/
def init_db (connOk : Bool) (st : DbState) : DbState :=
  if connOk then createTableIfNotExists st else st

/-- The database environment `save_forecast_to_db` runs against:
`connFail` models `psycopg2.connect` raising `OperationalError`
(`get_db_connection` returns `None`); `connOk o` models a live connection
whose execute-and-commit either succeeds or raises with message `o`. -/
inductive DbEnv where
  | connFail
  | connOk (tryOutcome : Except String Unit)

/-- What one call to `save_forecast_to_db` returned and did: the
`(success, message)` pair plus a trace of the connection lifecycle. -/
structure StoreResult where
  success : Bool
  message : String
  insertAttempted : Bool
  committed : Bool
  rolledBack : Bool
  closed : Bool

/-- `save_forecast_to_db(user_name, city, forecast_data)`: connection failure
returns early (nothing to close); otherwise the `try` block executes the
INSERT and commits, `except Exception` rolls back, and `finally` closes the
connection on both paths. -/
def save_forecast_to_db (env : DbEnv) (userName city : String) (doc : Json) : StoreResult :=
  match env with
  | .connFail =>
    { success := false, message := "Database connection failed."
      insertAttempted := false, committed := false, rolledBack := false, closed := false }
  | .connOk (.ok _) =>
    { success := true, message := "Forecast saved successfully!"
      insertAttempted := true, committed := true, rolledBack := false, closed := true }
  | .connOk (.error _) =>
    { success := false, message := "Failed to save forecast due to a database error."
      insertAttempted := true, committed := false, rolledBack := true, closed := true }

/-! ### Request Handler (`index`, `save_forecast`) -/

/-- Python falsiness of `request.form.get(k)`: `None` when the field is
absent, otherwise the string; falsy when absent or empty. -/
def falsyField : Option String → Bool
  | none => true
  | some s => s.isEmpty

/-- The HTTP method of the `/` request. -/
inductive Method where
  | get
  | post

/-- What the `index` handler does with a request: render the bare page,
flash a message (with its category) and redirect, render the results page,
or let an exception escape unhandled. -/
inductive IndexOutcome where
  | page
  | flashRedirect (msg : String) (category : String)
  | render (forecasts : List ForecastEntry) (cityInfo : CityInfo) (userName : String) (raw : Json)
  | unhandled (exn : String)

/-- A printable name for an escaping parse exception. -/
def pyExnName : PyExn → String
  | .keyError k => "KeyError: " ++ k
  | .typeError m => "TypeError: " ++ m
  | .indexError m => "IndexError: " ++ m
  | .attrError m => "AttributeError: " ++ m

/-- The `index` route. The Boolean records whether a network request was
attempted. The call `forecasts, city_info, raw_data, error =
get_weather_forecast(city)` unpacks a 4-tuple, so the two-element return on
the missing-key path raises `ValueError` inside the handler, which has no
`try`; escaping parse exceptions likewise propagate. -/
def index (apiKey : Option String) (fmtDate : ℚ → String) (net : NetOutcome)
    (method : Method) (nameField cityField : Option String) : IndexOutcome × Bool :=
  match method with
  | .get => (.page, false)
  | .post =>
    if falsyField nameField || falsyField cityField then
      (.flashRedirect "Please enter both your name and a city." "error", false)
    else
      match get_weather_forecast apiKey fmtDate net (cityField.getD "") with
      | (.pair2 _, attempted) =>
        (.unhandled "ValueError: not enough values to unpack (expected 4, got 2)", attempted)
      | (.exc e, attempted) => (.unhandled (pyExnName e), attempted)
      | (.err4 msg, attempted) => (.flashRedirect msg "error", attempted)
      | (.ok4 fcs ci raw, attempted) => (.render fcs ci (nameField.getD "") raw, attempted)

/-- What the `save_forecast` handler does: it always redirects, after
flashing one message. -/
inductive SaveOutcome where
  | flashRedirect (msg : String) (category : String)
  deriving DecidableEq

/-- The `/save_forecast` route. `loads` stands for `json.loads` (an error is
a `json.JSONDecodeError`, the only exception the handler catches). The
Boolean records whether `save_forecast_to_db` was invoked. -/
def save_forecast (loads : String → Except Unit Json) (env : DbEnv)
    (userNameField cityField rawDataField : Option String) : SaveOutcome × Bool :=
  if falsyField userNameField || falsyField cityField || falsyField rawDataField then
    (.flashRedirect "Missing data to save the forecast." "error", false)
  else
    match loads (rawDataField.getD "") with
    | .error _ => (.flashRedirect "Invalid forecast data format." "error", false)
    | .ok doc =>
      let r := save_forecast_to_db env (userNameField.getD "") (cityField.getD "") doc
      (.flashRedirect r.message (if r.success then "success" else "error"), true)

/-! ### Derived observations used to state the properties -/

/-- Whether a sample passes the loop's filter: its `dt_txt` value exists and
`"12:00:00" in forecast['dt_txt']` holds. -/
def isMidday (s : Json) : Bool :=
  match subStr s "dt_txt" with
  | .ok v =>
    match pyIn "12:00:00" v with
    | .ok b => b
    | .error _ => false
  | .error _ => false

/-- The samples the loop iterates over: the value of the response's `list`
field (`data.get('list', [])`), as a sequence. -/
def sampleList (data : Json) : List Json :=
  match data with
  | .obj fs =>
    match lookupKey fs "list" with
    | some j =>
      match iterElems j with
      | .ok xs => xs
      | .error _ => []
    | none => []
  | _ => []

/-- The value of the source expression `forecast['main']['temp']` coerced as
`round` coerces it. -/
def sampleTempVal (s : Json) : Except PyExn ℚ :=
  match subStr s "main" with
  | .error e => .error e
  | .ok mainJ =>
    match subStr mainJ "temp" with
    | .error e => .error e
    | .ok t => asNumber t

/-- The value of the source expression `forecast['weather'][0]['description']`
coerced as `.title()` requires. -/
def sampleDescVal (s : Json) : Except PyExn String :=
  match subStr s "weather" with
  | .error e => .error e
  | .ok weatherJ =>
    match subIdx weatherJ 0 with
    | .error e => .error e
    | .ok w0 =>
      match subStr w0 "description" with
      | .error e => .error e
      | .ok d => asString d

/-! ### Concrete fixtures for witnesses and counterexamples -/

/-- A well-formed midday sample: 20.6 °C, "clear sky", icon "01d". -/
def noonSample : Json :=
  .obj [("dt_txt", .str "2026-10-12 12:00:00"), ("dt", .num 1760270400),
        ("main", .obj [("temp", .num (mkRat 103 5))]),
        ("weather", .arr [.obj [("description", .str "clear sky"), ("icon", .str "01d")]])]

/-- A successful response body with exactly one midday sample. -/
def noonBody : Json :=
  .obj [("list", .arr [noonSample]),
        ("city", .obj [("name", .str "Paris"), ("country", .str "FR")])]

/-- A sample whose timestamp text is a morning, not midday, reading. -/
def morningSample : Json := .obj [("dt_txt", .str "2026-10-12 09:00:00")]

/-- The fields of a successful response body whose one sample is not a midday
one. -/
def morningFields : List (String × Json) :=
  [("list", .arr [morningSample]),
   ("city", .obj [("name", .str "Paris"), ("country", .str "FR")])]

/-- A successful response body with no midday sample. -/
def morningBody : Json := .obj morningFields

/-- A sample with no `dt_txt` key at all (but an otherwise plausible shape). -/
def bareSample : Json := .obj [("dt", .num 0)]

/-- A 2xx body whose one sample lacks `dt_txt`, with a valid city block. -/
def bareBody : Json :=
  .obj [("list", .arr [bareSample]),
        ("city", .obj [("name", .str "Paris"), ("country", .str "FR")])]

/-- A 2xx body whose one sample is the empty object. -/
def emptySampleBody : Json := .obj [("list", .arr [.obj []])]

/-- A `json.loads` stand-in that rejects every string, as it does the literal
text `not-json`. -/
def loadsRejectAll : String → Except Unit Json := fun _ => .error ()

/-! ### Lemmas about the sample-processing loop -/

theorem processSample_ok_none {fmt : ℚ → String} {s : Json}
    (h : processSample fmt s = .ok none) : isMidday s = false := by
  unfold processSample at h
  unfold isMidday
  repeat' split at h
  all_goals simp_all

theorem processSample_ok_some {fmt : ℚ → String} {s : Json} {e : ForecastEntry}
    (h : processSample fmt s = .ok (some e)) : isMidday s = true := by
  unfold processSample at h
  unfold isMidday
  repeat' split at h
  all_goals simp_all

theorem processSamples_length {fmt : ℚ → String} :
    ∀ {samples : List Json} {fcs : List ForecastEntry},
      processSamples fmt samples = .ok fcs → fcs.length = samples.countP isMidday := by
  intro samples
  induction samples with
  | nil =>
    intro fcs h
    unfold processSamples at h
    simp only [Except.ok.injEq] at h
    subst h
    simp
  | cons s rest ih =>
    intro fcs h
    unfold processSamples at h
    cases hs : processSample fmt s with
    | error e => rw [hs] at h; simp_all
    | ok o =>
      rw [hs] at h
      cases o with
      | none =>
        have hm := processSample_ok_none hs
        rw [List.countP_cons, hm]
        simpa using ih h
      | some entry =>
        have hm := processSample_ok_some hs
        cases hr : processSamples fmt rest with
        | error e => rw [hr] at h; simp_all
        | ok entries =>
          rw [hr] at h
          simp only [Except.ok.injEq] at h
          subst h
          rw [List.countP_cons, hm]
          simp [ih hr]

theorem processSamples_all_none {fmt : ℚ → String} :
    ∀ {samples : List Json},
      (∀ s ∈ samples, processSample fmt s = .ok none) →
      processSamples fmt samples = .ok [] := by
  intro samples
  induction samples with
  | nil => intro _; rfl
  | cons s rest ih =>
    intro h
    unfold processSamples
    rw [h s (by simp)]
    exact ih fun t ht => h t (by simp [ht])

theorem processSample_not_midday {fmt : ℚ → String} {s : Json} {t : String}
    (hsub : subStr s "dt_txt" = .ok (.str t))
    (ht : strContains t "12:00:00" = false) :
    processSample fmt s = .ok none := by
  unfold processSample
  rw [hsub]
  simp [pyIn, ht]

theorem processBody_length {fmt : ℚ → String} {data : Json}
    {fcs : List ForecastEntry} {ci : CityInfo}
    (h : processBody fmt data = .ok (fcs, ci)) :
    fcs.length = (sampleList data).countP isMidday := by
  unfold processBody at h
  cases hd : dictGetD data "list" (.arr []) with
  | error e => rw [hd] at h; simp at h
  | ok lst =>
    rw [hd] at h
    simp only [] at h
    cases hi : iterElems lst with
    | error e => rw [hi] at h; simp at h
    | ok samples =>
      rw [hi] at h
      simp only [] at h
      cases hp : processSamples fmt samples with
      | error e => rw [hp] at h; simp at h
      | ok l =>
        rw [hp] at h
        simp only [] at h
        have hl := processSamples_length hp
        have hlen : fcs.length = samples.countP isMidday := by
          repeat' split at h
          all_goals simp_all
        have hsl : sampleList data = samples := by
          cases data with
          | obj fs =>
            simp only [dictGetD] at hd
            cases hk : lookupKey fs "list" with
            | none =>
              rw [hk] at hd
              simp only [Except.ok.injEq] at hd
              subst hd
              simp only [iterElems, Except.ok.injEq] at hi
              simp [sampleList, hk, ← hi]
            | some j =>
              rw [hk] at hd
              simp only [Except.ok.injEq] at hd
              subst hd
              simp [sampleList, hk, hi]
          | null => simp [dictGetD] at hd
          | bool b => simp [dictGetD] at hd
          | num q => simp [dictGetD] at hd
          | str s => simp [dictGetD] at hd
          | arr xs => simp [dictGetD] at hd
        rw [hsl]
        exact hlen

/-! ### The claims -/

/-- C1: with the API credential unset, `get_weather_forecast` does return the
configuration error with no network request attempted — but as a two-element
tuple, which `index` unpacks into four variables, so the handler raises
`ValueError` instead of flashing the message: the surfacing half of the claim
fails on the code. -/
theorem index_missing_key_unpack_fault :
    index none (fun _ => "") (.requestExc "unreachable") .post (some "Alice") (some "Paris")
      = (.unhandled "ValueError: not enough values to unpack (expected 4, got 2)", false) ∧
    get_weather_forecast none (fun _ => "") (.requestExc "unreachable") "Paris"
      = (.pair2 "OpenWeatherMap API key is not configured.", false) :=
  ⟨rfl, rfl⟩

/-- C2: whenever `get_weather_forecast` returns its success 4-tuple, the
forecast list has exactly one entry per sample of the response's `list` field
passing the `"12:00:00" in dt_txt` filter (including zero). -/
theorem forecast_count_matches_midday_count
    (apiKey : Option String) (fmt : ℚ → String) (net : NetOutcome) (city : String)
    (fcs : List ForecastEntry) (ci : CityInfo) (raw : Json)
    (h : (get_weather_forecast apiKey fmt net city).1 = .ok4 fcs ci raw) :
    fcs.length = (sampleList raw).countP isMidday := by
  unfold get_weather_forecast at h
  split at h
  · simp at h
  · cases net with
    | requestExc m => simp at h
    | resp status errText body =>
      simp only [] at h
      split at h
      · split at h <;> simp at h
      · cases hp : processBody fmt body with
        | error e => rw [hp] at h; simp at h
        | ok pr =>
          rw [hp] at h
          obtain ⟨l, ci2⟩ := pr
          simp only [FetchResult.ok4.injEq] at h
          obtain ⟨rfl, rfl, rfl⟩ := h
          exact processBody_length hp

/-- Witness for C2: a successful response with exactly one midday sample
yields exactly one entry. -/
theorem forecast_count_matches_midday_count_witness :
    (get_weather_forecast (some "key") (fun _ => "Sunday, Oct 12") (.resp 200 "" noonBody) "Paris").1
      = .ok4 [⟨"Sunday, Oct 12", 21, "Clear Sky", .str "01d"⟩]
          ⟨.str "Paris", .str "FR"⟩ noonBody ∧
    ([(⟨"Sunday, Oct 12", 21, "Clear Sky", .str "01d"⟩ : ForecastEntry)]).length
      = (sampleList noonBody).countP isMidday :=
  ⟨rfl, forecast_count_matches_midday_count (some "key") (fun _ => "Sunday, Oct 12")
    (.resp 200 "" noonBody) "Paris" _ _ _ rfl⟩

/-- C3 counterexample: a 2xx response whose one sample has no `dt_txt` key
has zero samples matching `"12:00:00"` and a valid city block, yet the call
raises `KeyError` instead of returning the empty-list success the claim
demands. -/
theorem zero_midday_success_refuted :
    (sampleList bareBody).countP isMidday = 0 ∧
    (get_weather_forecast (some "key") (fun _ => "") (.resp 200 "" bareBody) "Paris").1
      = .exc (.keyError "dt_txt") :=
  ⟨rfl, rfl⟩

/-- C3 as amended: for a 2xx response whose samples all carry a textual
`dt_txt` that does not contain `"12:00:00"`, and whose `city` member has
`name` and `country` entries, the result is the success 4-tuple with an empty
forecast list, the `CityInfo` taken from the city descriptor, and a `None`
error slot. -/
theorem zero_midday_wellformed_empty_success
    (apiKey : Option String) (fmt : ℚ → String) (city errText : String)
    (status : Nat) (fs : List (String × Json)) (samples : List Json)
    (cityJ nm co : Json)
    (hkey : truthyKey apiKey = true)
    (hstatus : 200 ≤ status ∧ status < 300)
    (hlist : lookupKey fs "list" = some (Json.arr samples) ∨
      (lookupKey fs "list" = none ∧ samples = []))
    (hsamples : ∀ s ∈ samples, ∃ t, subStr s "dt_txt" = .ok (.str t) ∧
      strContains t "12:00:00" = false)
    (hcity : lookupKey fs "city" = some cityJ)
    (hnm : subStr cityJ "name" = .ok nm)
    (hco : subStr cityJ "country" = .ok co) :
    get_weather_forecast apiKey fmt (.resp status errText (.obj fs)) city
      = (.ok4 [] ⟨nm, co⟩ (.obj fs), true) := by
  have hproc : processSamples fmt samples = .ok [] :=
    processSamples_all_none fun s hs => by
      obtain ⟨t, h1, h2⟩ := hsamples s hs
      exact processSample_not_midday h1 h2
  have hc : subStr (Json.obj fs) "city" = .ok cityJ := by
    simp [subStr, hcity]
  have hbody : processBody fmt (.obj fs) = .ok ([], ⟨nm, co⟩) := by
    unfold processBody
    rcases hlist with hl | ⟨hl, rfl⟩ <;>
      simp [dictGetD, hl, iterElems, hproc, hc, hnm, hco]
  have h4 : ¬(400 ≤ status ∧ status < 600) := by omega
  unfold get_weather_forecast
  rw [hkey]
  simp [h4, hbody]

/-- Witness for the amended C3: a 2xx response whose one sample is a morning
reading produces the empty-list success. -/
theorem zero_midday_wellformed_empty_success_witness :
    truthyKey (some "key") = true ∧
    (∀ s ∈ [morningSample], ∃ t, subStr s "dt_txt" = .ok (.str t) ∧
      strContains t "12:00:00" = false) ∧
    get_weather_forecast (some "key") (fun _ => "") (.resp 200 "" morningBody) "Paris"
      = (.ok4 [] ⟨.str "Paris", .str "FR"⟩ morningBody, true) := by
  refine ⟨rfl, ?_, ?_⟩
  · intro s hs
    simp only [List.mem_singleton] at hs
    subst hs
    exact ⟨"2026-10-12 09:00:00", rfl, rfl⟩
  · exact zero_midday_wellformed_empty_success (some "key") (fun _ => "") "Paris" "" 200
      morningFields [morningSample] (Json.obj [("name", .str "Paris"), ("country", .str "FR")])
      (.str "Paris") (.str "FR") rfl (by omega) (Or.inl rfl)
      (fun s hs => by
        simp only [List.mem_singleton] at hs
        subst hs
        exact ⟨"2026-10-12 09:00:00", rfl, rfl⟩)
      rfl rfl rfl

/-- C4: a 404 from the upstream, for any city and any response body, yields
exactly the not-found message with the requested city interpolated, and no
forecast data (the `err4` constructor is the `None, None, None, message`
return). -/
theorem http404_not_found_message
    (apiKey : Option String) (fmt : ℚ → String) (errText : String) (body : Json) (city : String)
    (hkey : truthyKey apiKey = true) :
    get_weather_forecast apiKey fmt (.resp 404 errText body) city
      = (.err4 ("Could not find weather data for '" ++ city ++ "'. Please check the spelling."), true) := by
  unfold get_weather_forecast
  rw [hkey]
  simp

/-- Witness for C4 at city Nonexistentville123, showing the fully evaluated
message. -/
theorem http404_not_found_message_witness :
    truthyKey (some "key") = true ∧
    get_weather_forecast (some "key") (fun _ => "") (.resp 404 "404 Client Error" Json.null)
        "Nonexistentville123"
      = (.err4 "Could not find weather data for 'Nonexistentville123'. Please check the spelling.",
          true) :=
  ⟨rfl, http404_not_found_message (some "key") (fun _ => "") "404 Client Error" Json.null
    "Nonexistentville123" rfl⟩

/-- C5: every entry the loop keeps has its temperature equal to the rounded
`main.temp` of its sample and its description equal to the title-cased
`weather[0].description`. -/
theorem entry_temp_round_desc_title (fmt : ℚ → String) (s : Json) (e : ForecastEntry)
    (h : processSample fmt s = .ok (some e)) :
    ∃ t d, sampleTempVal s = .ok t ∧ e.temp = pyRound t ∧
      sampleDescVal s = .ok d ∧ e.description = pyTitle d := by
  unfold processSample at h
  cases h1 : subStr s "dt_txt" with
  | error a => rw [h1] at h; simp at h
  | ok dtTxt =>
    rw [h1] at h
    simp only [] at h
    cases h2 : pyIn "12:00:00" dtTxt with
    | error a => rw [h2] at h; simp at h
    | ok b =>
      rw [h2] at h
      cases b with
      | false => simp at h
      | true =>
        simp only [] at h
        cases h3 : subStr s "dt" with
        | error a => rw [h3] at h; simp at h
        | ok dtJ =>
          rw [h3] at h
          simp only [] at h
          cases h4 : asNumber dtJ with
          | error a => rw [h4] at h; simp at h
          | ok ts =>
            rw [h4] at h
            simp only [] at h
            cases h5 : subStr s "main" with
            | error a => rw [h5] at h; simp at h
            | ok mainJ =>
              rw [h5] at h
              simp only [] at h
              cases h6 : subStr mainJ "temp" with
              | error a => rw [h6] at h; simp at h
              | ok tempJ =>
                rw [h6] at h
                simp only [] at h
                cases h7 : asNumber tempJ with
                | error a => rw [h7] at h; simp at h
                | ok t =>
                  rw [h7] at h
                  simp only [] at h
                  cases h8 : subStr s "weather" with
                  | error a => rw [h8] at h; simp at h
                  | ok weatherJ =>
                    rw [h8] at h
                    simp only [] at h
                    cases h9 : subIdx weatherJ 0 with
                    | error a => rw [h9] at h; simp at h
                    | ok w0 =>
                      rw [h9] at h
                      simp only [] at h
                      cases h10 : subStr w0 "description" with
                      | error a => rw [h10] at h; simp at h
                      | ok descJ =>
                        rw [h10] at h
                        simp only [] at h
                        cases h11 : asString descJ with
                        | error a => rw [h11] at h; simp at h
                        | ok d =>
                          rw [h11] at h
                          simp only [] at h
                          cases h12 : subStr w0 "icon" with
                          | error a => rw [h12] at h; simp at h
                          | ok iconJ =>
                            rw [h12] at h
                            simp only [Except.ok.injEq, Option.some.injEq] at h
                            refine ⟨t, d, ?_, ?_, ?_, ?_⟩
                            · simp [sampleTempVal, h5, h6, h7]
                            · rw [← h]
                            · simp [sampleDescVal, h8, h9, h10, h11]
                            · rw [← h]

/-- Witness for C5: the midday sample with temperature 20.6 and description
"clear sky" yields temp 21 and description "Clear Sky". -/
theorem entry_temp_round_desc_title_witness :
    processSample (fun _ => "Sunday, Oct 12") noonSample
      = .ok (some ⟨"Sunday, Oct 12", 21, "Clear Sky", .str "01d"⟩) ∧
    pyRound (mkRat 103 5) = 21 ∧ pyTitle "clear sky" = "Clear Sky" ∧
    (∃ t d, sampleTempVal noonSample = .ok t ∧
      (⟨"Sunday, Oct 12", 21, "Clear Sky", Json.str "01d"⟩ : ForecastEntry).temp = pyRound t ∧
      sampleDescVal noonSample = .ok d ∧
      (⟨"Sunday, Oct 12", 21, "Clear Sky", Json.str "01d"⟩ : ForecastEntry).description = pyTitle d) :=
  ⟨rfl, rfl, rfl,
    entry_temp_round_desc_title (fun _ => "Sunday, Oct 12") noonSample
      ⟨"Sunday, Oct 12", 21, "Clear Sky", .str "01d"⟩ rfl⟩

/-- C6: a POST of the display form with an empty or absent name or city
flashes the validation message and redirects, with no network request
attempted. -/
theorem empty_fields_no_api_call
    (apiKey : Option String) (fmt : ℚ → String) (net : NetOutcome)
    (nameField cityField : Option String)
    (h : falsyField nameField = true ∨ falsyField cityField = true) :
    index apiKey fmt net .post nameField cityField
      = (.flashRedirect "Please enter both your name and a city." "error", false) := by
  unfold index
  rcases h with h | h <;> simp [h]

/-- Witness for C6: an empty name field with a valid city. -/
theorem empty_fields_no_api_call_witness :
    falsyField (some "") = true ∧
    index (some "key") (fun _ => "") (.requestExc "unreachable") .post (some "") (some "Paris")
      = (.flashRedirect "Please enter both your name and a city." "error", false) :=
  ⟨rfl, empty_fields_no_api_call (some "key") (fun _ => "") (.requestExc "unreachable")
    (some "") (some "Paris") (Or.inl rfl)⟩

/-- C7 counterexample: with the user-name field absent and `raw_data` present
but invalid (`not-json`), the handler does skip the insert, but it flashes
the missing-data message, not the invalid-format one the claim requires for
every such submission. -/
theorem invalid_json_flash_refuted :
    loadsRejectAll "not-json" = .error () ∧
    save_forecast loadsRejectAll .connFail none (some "Paris") (some "not-json")
      = (.flashRedirect "Missing data to save the forecast." "error", false) ∧
    SaveOutcome.flashRedirect "Missing data to save the forecast." "error"
      ≠ SaveOutcome.flashRedirect "Invalid forecast data format." "error" :=
  ⟨rfl, rfl, by decide⟩

/-- C7 as amended: when user name, city and `raw_data` are all present and
non-empty and `raw_data` fails to parse as JSON, the handler flashes the
invalid-format error and never invokes the storage insert. -/
theorem invalid_json_no_insert (loads : String → Except Unit Json) (env : DbEnv)
    (userNameField cityField rawDataField : Option String)
    (hun : falsyField userNameField = false)
    (hct : falsyField cityField = false)
    (hrd : falsyField rawDataField = false)
    (hparse : loads (rawDataField.getD "") = .error ()) :
    save_forecast loads env userNameField cityField rawDataField
      = (.flashRedirect "Invalid forecast data format." "error", false) := by
  unfold save_forecast
  simp [hun, hct, hrd, hparse]

/-- Witness for the amended C7 at the literal text `not-json`. -/
theorem invalid_json_no_insert_witness :
    falsyField (some "Alice") = false ∧
    loadsRejectAll "not-json" = .error () ∧
    save_forecast loadsRejectAll .connFail (some "Alice") (some "Paris") (some "not-json")
      = (.flashRedirect "Invalid forecast data format." "error", false) :=
  ⟨rfl, rfl, invalid_json_no_insert loadsRejectAll .connFail
    (some "Alice") (some "Paris") (some "not-json") rfl rfl rfl rfl⟩

/-- C8: `save_forecast_to_db` always returns a flag-and-message pair (the
Lean model is a total function because `except Exception` catches every
insert-path exception): connection failure reports its own message with no
insert attempted; any live-connection path closes the connection; an insert
failure rolls back, reports failure with the write-failure message and no
commit; and the two failure messages are distinct. -/
theorem store_insert_error_contract (env : DbEnv) (u c : String) (d : Json) :
    (env = .connFail →
      (save_forecast_to_db env u c d).success = false ∧
      (save_forecast_to_db env u c d).message = "Database connection failed." ∧
      (save_forecast_to_db env u c d).insertAttempted = false) ∧
    (∀ o, env = .connOk o → (save_forecast_to_db env u c d).closed = true) ∧
    (∀ msg, env = .connOk (.error msg) →
      (save_forecast_to_db env u c d).rolledBack = true ∧
      (save_forecast_to_db env u c d).success = false ∧
      (save_forecast_to_db env u c d).committed = false ∧
      (save_forecast_to_db env u c d).message
        = "Failed to save forecast due to a database error.") ∧
    (save_forecast_to_db DbEnv.connFail u c d).message
      ≠ (save_forecast_to_db (DbEnv.connOk (.error "write failure")) u c d).message := by
  refine ⟨?_, ?_, ?_, ?_⟩
  · rintro rfl
    exact ⟨rfl, rfl, rfl⟩
  · rintro o rfl
    cases o <;> rfl
  · rintro msg rfl
    exact ⟨rfl, rfl, rfl, rfl⟩
  · intro hmsg
    simp [save_forecast_to_db] at hmsg

/-- Witness for C8 at a failing insert: rolled back and closed. -/
theorem store_insert_error_contract_witness :
    (save_forecast_to_db (DbEnv.connOk (.error "duplicate key")) "Alice" "Paris"
      (Json.obj [])).rolledBack = true ∧
    (save_forecast_to_db (DbEnv.connOk (.error "duplicate key")) "Alice" "Paris"
      (Json.obj [])).closed = true := by
  have h := store_insert_error_contract (DbEnv.connOk (.error "duplicate key"))
    "Alice" "Paris" (Json.obj [])
  exact ⟨(h.2.2.1 "duplicate key" rfl).1, h.2.1 (Except.error "duplicate key") rfl⟩

/-- Repeating `init_db` once more changes nothing (helper for C9). -/
theorem init_db_once (connOk : Bool) (st : DbState) :
    init_db connOk (init_db connOk st) = init_db connOk st := by
  cases connOk with
  | false => rfl
  | true =>
    show createTableIfNotExists (createTableIfNotExists st) = createTableIfNotExists st
    cases hf : st.forecasts with
    | none => simp [createTableIfNotExists, hf]
    | some t => simp [createTableIfNotExists, hf]

/-- C9: `init_db` is idempotent — any number of calls leaves the database as
one call does, and when the `forecasts` table already exists a call changes
neither schema nor rows. -/
theorem init_db_idempotent (connOk : Bool) (st : DbState) (n : Nat) :
    (init_db connOk)^[n + 1] st = init_db connOk st ∧
    (∀ tbl, st.forecasts = some tbl → init_db connOk st = st) := by
  constructor
  · induction n with
    | zero => rfl
    | succ m ih =>
      rw [Function.iterate_succ_apply', ih]
      exact init_db_once connOk st
  · intro tbl htbl
    cases connOk with
    | false => rfl
    | true =>
      show createTableIfNotExists st = st
      simp [createTableIfNotExists, htbl]

/-- Witness for C9: double application on a state that already holds the
table. -/
theorem init_db_idempotent_witness :
    (DbState.mk (some (forecastsSchema, []))).forecasts = some (forecastsSchema, []) ∧
    init_db true ⟨some (forecastsSchema, [])⟩ = ⟨some (forecastsSchema, [])⟩ ∧
    (init_db true)^[2] ⟨some (forecastsSchema, [])⟩ = init_db true ⟨some (forecastsSchema, [])⟩ := by
  refine ⟨rfl, ?_, ?_⟩
  · exact (init_db_idempotent true ⟨some (forecastsSchema, [])⟩ 1).2 (forecastsSchema, []) rfl
  · exact (init_db_idempotent true ⟨some (forecastsSchema, [])⟩ 1).1

/-- C10: a 2xx response whose sample lacks the `dt_txt` key makes
`get_weather_forecast` raise an uncaught `KeyError` (the `exc` constructor:
neither `except` clause matches it) instead of returning an error result. -/
theorem success_parse_keyerror_escapes :
    get_weather_forecast (some "key") (fun _ => "") (.resp 200 "" emptySampleBody) "Paris"
      = (.exc (.keyError "dt_txt"), true) :=
  rfl

end WeatherApp
